import Mathlib

/-!
# learn_opengl.cpp: call-trace model of `main`, `framebuffer_size_callback`, `processInput`

The program is a straight line of GLFW / GLAD / OpenGL calls followed by a render loop.
Its observable behaviour is the ordered sequence of library calls it makes, the value it
returns, the window's close-request flag and the drawing rectangle it requests.

* Every library call of the source is one constructor of `Call`, carrying the arguments
  the source passes.  The single `GLFWwindow*` is left implicit.
* Everything the libraries hand back (handles, status integers, diagnostic logs, key
  states, events delivered while polling) comes from an `Env`, universally quantified in
  the theorems.
* The render loop may run forever; `fuel` bounds the number of evaluations of the loop
  condition that are observed, and a run that is cut off reports `exitCode = none`
  together with the calls made so far.
-/

namespace LearnOpenGL

/-! ## Library enumerants (glad.h, glfw3.h) -/

/-- OpenGL enumerants named by the program, plus neighbours it does not use. -/
inductive GLenum
  | GL_MAX_VERTEX_ATTRIBS
  | GL_VERTEX_SHADER
  | GL_FRAGMENT_SHADER
  | GL_COMPILE_STATUS
  | GL_LINK_STATUS
  | GL_ARRAY_BUFFER
  | GL_ELEMENT_ARRAY_BUFFER
  | GL_STATIC_DRAW
  | GL_STREAM_DRAW
  | GL_DYNAMIC_DRAW
  | GL_FLOAT
  | GL_TRIANGLES
  | GL_LINES
  | GL_UNSIGNED_BYTE
  | GL_UNSIGNED_SHORT
  | GL_UNSIGNED_INT
  | GL_COLOR_BUFFER_BIT
  deriving DecidableEq, Repr

/-- GLFW constants named by the program. -/
inductive GLFWconst
  | GLFW_CONTEXT_VERSION_MAJOR
  | GLFW_CONTEXT_VERSION_MINOR
  | GLFW_OPENGL_PROFILE
  | GLFW_OPENGL_FORWARD_COMPAT
  | GLFW_OPENGL_CORE_PROFILE
  | GLFW_KEY_ESCAPE
  deriving DecidableEq, Repr

/-- Second argument of `glfwWindowHint`: a number, a GLFW constant, or `GL_TRUE`. -/
inductive HintValue
  | num (n : Int)
  | const (c : GLFWconst)
  | GL_TRUE
  deriving DecidableEq, Repr

/-- Value of `GLFW_PRESS` in glfw3.h. -/
def GLFW_PRESS : Int := 1

/-- Value of `GLFW_RELEASE` in glfw3.h. -/
def GLFW_RELEASE : Int := 0

/-- One operand of a `std::cout <<` chain. -/
inductive Printed
  | str (s : String)
  | int (n : Int)
  | chars (buffer : List Char)
  | endl
  deriving DecidableEq, Repr

/-- Payload handed to `glBufferData`. -/
inductive BufferData
  | floats (xs : List Rat)
  | uints (xs : List Nat)
  deriving DecidableEq, Repr

/-- Library calls made by the program, with the arguments of the source.  For the two
queries the loop and `processInput` branch on, the value handed back is recorded too. -/
inductive Call
  | glGetIntegerv (pname : GLenum) (data : Int)
  | cout (items : List Printed)
  | glfwInit
  | glfwWindowHint (hint : GLFWconst) (value : HintValue)
  | glfwCreateWindow (width height : Nat) (title : String)
  | glfwTerminate
  | glfwMakeContextCurrent
  | glfwSetFramebufferSizeCallback
  | gladLoadGLLoader
  | glCreateShader (type : GLenum)
  | glShaderSource (shader count : Nat) (source : String)
  | glCompileShader (shader : Nat)
  | glGetShaderiv (shader : Nat) (pname : GLenum)
  | glGetShaderInfoLog (shader bufSize : Nat)
  | glCreateProgram
  | glAttachShader (program shader : Nat)
  | glLinkProgram (program : Nat)
  | glGetProgramiv (program : Nat) (pname : GLenum)
  | glGetProgramInfoLog (program bufSize : Nat)
  | glDeleteShader (shader : Nat)
  | glGenBuffers (n : Nat)
  | glGenVertexArrays (n : Nat)
  | glBindVertexArray (array : Nat)
  | glBindBuffer (target : GLenum) (buffer : Nat)
  | glBufferData (target : GLenum) (size : Nat) (data : BufferData) (usage : GLenum)
  | glVertexAttribPointer (index size : Nat) (type : GLenum) (normalized : Bool)
      (stride pointer : Nat)
  | glEnableVertexAttribArray (index : Nat)
  | glfwWindowShouldClose (returned : Bool)
  | glfwGetKey (key : GLFWconst) (returned : Int)
  | glfwSetWindowShouldClose (value : Bool)
  | glClearColor (red green blue alpha : Rat)
  | glClear (mask : GLenum)
  | glUseProgram (program : Nat)
  | glDrawElements (mode : GLenum) (count : Int) (type : GLenum) (indices : Nat)
  | glfwSwapBuffers
  | glfwPollEvents
  | glViewport (x y width height : Int)
  deriving DecidableEq, Repr

/-! ## Environment and state -/

/-- What one call of `glfwPollEvents` delivers: framebuffer resizes (each one runs the
registered callback) and possibly a close request from the window system. -/
structure Events where
  resizes : List (Int × Int)
  closeRequested : Bool

/-- Everything the libraries and the outside world decide. -/
structure Env where
  /-- Unspecified content of the uninitialised local `nrAttributes`. -/
  nrAttributes : Int
  /-- Whether the build defines `__APPLE__`. -/
  apple : Bool
  /-- Whether `glfwCreateWindow` returned a non-NULL window. -/
  windowCreated : Bool
  /-- Close-request flag of the window as created. -/
  shouldCloseAtCreation : Bool
  /-- Return value of `gladLoadGLLoader`. -/
  gladLoaded : Int
  /-- Handle returned by `glCreateShader(GL_VERTEX_SHADER)`. -/
  vertexShader : Nat
  /-- Value stored in `success` by the first `glGetShaderiv`. -/
  vertexCompileStatus : Int
  /-- Device-side log of the vertex shader. -/
  vertexInfoLog : List Char
  /-- Handle returned by `glCreateShader(GL_FRAGMENT_SHADER)`. -/
  fragmentShader : Nat
  /-- Value stored in `success` by the second `glGetShaderiv`. -/
  fragmentCompileStatus : Int
  /-- Device-side log of the fragment shader. -/
  fragmentInfoLog : List Char
  /-- Handle returned by `glCreateProgram`. -/
  shaderProgram : Nat
  /-- Value stored in `success` by `glGetProgramiv`. -/
  linkStatus : Int
  /-- Device-side log of the program. -/
  programInfoLog : List Char
  /-- Names stored by `glGenBuffers` / `glGenVertexArrays`. -/
  VBO : Nat
  VAO : Nat
  EBO : Nat
  /-- Return value of `glfwGetKey(window, GLFW_KEY_ESCAPE)` in loop iteration `i`. -/
  escapeKey : Nat → Int
  /-- Events delivered by the `glfwPollEvents` of loop iteration `i`. -/
  events : Nat → Events

/-- Observable state: the window's close-request flag, the drawing rectangle most
recently requested through `glViewport`, and the calls made so far, oldest first. -/
structure World where
  shouldClose : Bool
  viewport : Option (Int × Int × Int × Int)
  calls : List Call

/-- Outcome of running `main`: the returned value (`none` while the loop is still
running when observation stops) and the final state. -/
structure Run where
  exitCode : Option Int
  world : World

/-- Record a call that changes nothing in `World` but the trace. -/
def emit (c : Call) (w : World) : World :=
  { w with calls := w.calls ++ [c] }

/-- Effect of `glViewport`: the requested rectangle is recorded. -/
def glViewport (x y width height : Int) (w : World) : World :=
  { w with viewport := some (x, y, width, height),
           calls := w.calls ++ [Call.glViewport x y width height] }

/-- Effect of `glfwSetWindowShouldClose`: the flag takes the given value. -/
def glfwSetWindowShouldClose (value : Bool) (w : World) : World :=
  { w with shouldClose := value,
           calls := w.calls ++ [Call.glfwSetWindowShouldClose value] }

/-- Characters `glGetShaderInfoLog` / `glGetProgramInfoLog` store before the terminating
NUL in a buffer of `bufSize` chars: at most `bufSize - 1` characters of the log. -/
def infoLogText (bufSize : Nat) (deviceLog : List Char) : List Char :=
  deviceLog.take (bufSize - 1)

/-! ## Program constants -/

def vertexShaderSource : String :=
  "#version 330 core\n" ++
  "layout (location = 0) in vec3 aPos;\n" ++
  "void main()\n" ++
  "\x7b\n" ++
  "   gl_Position = vec4(aPos.x, aPos.y, aPos.z, 1.0);\n" ++
  "\x7d"

def fragmentShaderSource : String :=
  "#version 330 core\n" ++
  "out vec4 FragColor;\n" ++
  "void main()\n" ++
  "\x7b\n" ++
  "   FragColor = vec4(1.0f, 0.5f, 0.2f, 1.0f);\n" ++
  "\x7d\n"

def SCR_WIDTH : Nat := 800
def SCR_HEIGHT : Nat := 600

/-- The array `float vertices[]` of `main`. -/
def vertices : List Rat :=
  [ 0.5,  0.5, 0.0,
    0.5, -0.5, 0.0,
   -0.5, -0.5, 0.0,
   -0.5,  0.5, 0.0,
    1.5,  0.5, 0.0 ]

/-- The array `unsigned int indices[]` of `main`. -/
def indices : List Nat :=
  [ 0, 1, 3,
    1, 2, 3,
    0, 4, 1 ]

/-- Size of a `float` in bytes. -/
def sizeofFloat : Nat := 4

/-- Size of an `unsigned int` in bytes. -/
def sizeofUnsignedInt : Nat := 4

/-- The local `int verticesLength = std::extent<decltype(indices)>::value`. -/
def verticesLength : Int := indices.length

/-- The local `int numberTriangles = verticesLength * 3`. -/
def numberTriangles : Int := verticesLength * 3

/-! ## The functions of the source -/

/-- The function `framebuffer_size_callback(window, width, height)`. -/
def framebuffer_size_callback (width height : Int) (w : World) : World :=
  glViewport 0 0 width height w

/-- The function `processInput(window)`; `key` is what `glfwGetKey` returns. -/
def processInput (key : Int) (w : World) : World :=
  let w := emit (Call.glfwGetKey GLFWconst.GLFW_KEY_ESCAPE key) w
  if key = GLFW_PRESS then glfwSetWindowShouldClose true w else w

/-- Effect of `glfwPollEvents`: pending resizes run the registered callback, and a close
request from the window system raises the flag. -/
def glfwPollEvents (ev : Events) (w : World) : World :=
  let w := emit Call.glfwPollEvents w
  let w := ev.resizes.foldl (fun w wh => framebuffer_size_callback wh.1 wh.2 w) w
  if ev.closeRequested then { w with shouldClose := true } else w

/-- Body of the `while` loop of `main` in iteration `i`. -/
def renderFrame (env : Env) (shaderProgram VAO : Nat) (count : Int) (i : Nat)
    (w : World) : World :=
  let w := processInput (env.escapeKey i) w
  let w := emit (Call.glClearColor 0.2 0.3 0.3 1.0) w
  let w := emit (Call.glClear GLenum.GL_COLOR_BUFFER_BIT) w
  let w := emit (Call.glUseProgram shaderProgram) w
  let w := emit (Call.glBindVertexArray VAO) w
  let w := emit (Call.glDrawElements GLenum.GL_TRIANGLES count GLenum.GL_UNSIGNED_INT 0) w
  let w := emit Call.glfwSwapBuffers w
  glfwPollEvents (env.events i) w

/-- The loop `while (!glfwWindowShouldClose(window)) ...` from iteration `i` on.  The
Boolean tells whether the loop was left within `fuel` evaluations of its condition. -/
def renderLoop (env : Env) (shaderProgram VAO : Nat) (count : Int) :
    Nat → Nat → World → Bool × World
  | 0, _, w => (false, w)
  | fuel + 1, i, w =>
    let w := emit (Call.glfwWindowShouldClose w.shouldClose) w
    if w.shouldClose then (true, w)
    else renderLoop env shaderProgram VAO count fuel (i + 1)
      (renderFrame env shaderProgram VAO count i w)

/-- The function `main`, one invocation of it. -/
def main (fuel : Nat) (env : Env) : Run :=
  let w : World := { shouldClose := false, viewport := none, calls := [] }
  let nrAttributes := env.nrAttributes
  let w := emit (Call.glGetIntegerv GLenum.GL_MAX_VERTEX_ATTRIBS nrAttributes) w
  let w := emit (Call.cout [Printed.str "Maximum nr of vertex attributes supported: ",
    Printed.int nrAttributes, Printed.endl]) w
  let w := emit Call.glfwInit w
  let w := emit (Call.glfwWindowHint GLFWconst.GLFW_CONTEXT_VERSION_MAJOR (HintValue.num 3)) w
  let w := emit (Call.glfwWindowHint GLFWconst.GLFW_CONTEXT_VERSION_MINOR (HintValue.num 3)) w
  let w := emit (Call.glfwWindowHint GLFWconst.GLFW_OPENGL_PROFILE
    (HintValue.const GLFWconst.GLFW_OPENGL_CORE_PROFILE)) w
  let w := if env.apple then
      emit (Call.glfwWindowHint GLFWconst.GLFW_OPENGL_FORWARD_COMPAT HintValue.GL_TRUE) w
    else w
  -- WINDOW CREATION
  let w := emit (Call.glfwCreateWindow SCR_WIDTH SCR_HEIGHT "LearnOpenGL") w
  if env.windowCreated = false then
    let w := emit (Call.cout [Printed.str "Failed to create GLFW window", Printed.endl]) w
    let w := emit Call.glfwTerminate w
    { exitCode := some (-1), world := w }
  else
  let w := { w with shouldClose := env.shouldCloseAtCreation }
  let w := emit Call.glfwMakeContextCurrent w
  let w := emit Call.glfwSetFramebufferSizeCallback w
  -- LOAD ALL OPENGL FUNCTION POINTERS
  let w := emit Call.gladLoadGLLoader w
  if env.gladLoaded = 0 then
    let w := emit (Call.cout [Printed.str "Failed to initialize GLAD", Printed.endl]) w
    { exitCode := some (-1), world := w }
  else
  -- VERTEX SHADER
  let w := emit (Call.glCreateShader GLenum.GL_VERTEX_SHADER) w
  let vertexShader := env.vertexShader
  let w := emit (Call.glShaderSource vertexShader 1 vertexShaderSource) w
  let w := emit (Call.glCompileShader vertexShader) w
  let w := emit (Call.glGetShaderiv vertexShader GLenum.GL_COMPILE_STATUS) w
  let success := env.vertexCompileStatus
  let w := if success = 0 then
      let w := emit (Call.glGetShaderInfoLog vertexShader 512) w
      let infoLog := infoLogText 512 env.vertexInfoLog
      emit (Call.cout [Printed.str "ERROR::SHADER::VERTEX::COMPILATION_FAILED\n",
        Printed.chars infoLog, Printed.endl]) w
    else w
  -- FRAGMENT SHADER
  let w := emit (Call.glCreateShader GLenum.GL_FRAGMENT_SHADER) w
  let fragmentShader := env.fragmentShader
  let w := emit (Call.glShaderSource fragmentShader 1 fragmentShaderSource) w
  let w := emit (Call.glCompileShader fragmentShader) w
  let w := emit (Call.glGetShaderiv fragmentShader GLenum.GL_COMPILE_STATUS) w
  let success := env.fragmentCompileStatus
  let w := if success = 0 then
      let w := emit (Call.glGetShaderInfoLog fragmentShader 512) w
      let infoLog := infoLogText 512 env.fragmentInfoLog
      emit (Call.cout [Printed.str "ERROR::SHADER::FRAGMENT::COMPILATION_FAILED\n",
        Printed.chars infoLog, Printed.endl]) w
    else w
  -- SHADER PROGRAM
  let w := emit Call.glCreateProgram w
  let shaderProgram := env.shaderProgram
  let w := emit (Call.glAttachShader shaderProgram vertexShader) w
  let w := emit (Call.glAttachShader shaderProgram fragmentShader) w
  let w := emit (Call.glLinkProgram shaderProgram) w
  let w := emit (Call.glGetProgramiv shaderProgram GLenum.GL_LINK_STATUS) w
  let success := env.linkStatus
  let w := if success = 0 then
      let w := emit (Call.glGetProgramInfoLog shaderProgram 512) w
      let infoLog := infoLogText 512 env.programInfoLog
      emit (Call.cout [Printed.str "ERROR::SHADER::PROGRAM::LINKING_FAILED\n",
        Printed.chars infoLog, Printed.endl]) w
    else w
  let w := emit (Call.glDeleteShader vertexShader) w
  let w := emit (Call.glDeleteShader fragmentShader) w
  -- geometry
  let w := emit (Call.glGenBuffers 1) w
  let VBO := env.VBO
  let w := emit (Call.glGenVertexArrays 1) w
  let VAO := env.VAO
  let w := emit (Call.glGenBuffers 1) w
  let EBO := env.EBO
  let w := emit (Call.glBindVertexArray VAO) w
  let w := emit (Call.glBindBuffer GLenum.GL_ARRAY_BUFFER VBO) w
  let w := emit (Call.glBufferData GLenum.GL_ARRAY_BUFFER (vertices.length * sizeofFloat)
    (BufferData.floats vertices) GLenum.GL_STATIC_DRAW) w
  let w := emit (Call.glBindBuffer GLenum.GL_ELEMENT_ARRAY_BUFFER EBO) w
  let w := emit (Call.glBufferData GLenum.GL_ELEMENT_ARRAY_BUFFER
    (indices.length * sizeofUnsignedInt) (BufferData.uints indices) GLenum.GL_STATIC_DRAW) w
  let w := emit (Call.glVertexAttribPointer 0 3 GLenum.GL_FLOAT false (3 * sizeofFloat) 0) w
  let w := emit (Call.glEnableVertexAttribArray 0) w
  -- RENDER LOOP
  match renderLoop env shaderProgram VAO verticesLength fuel 0 w with
  | (false, w) => { exitCode := none, world := w }
  | (true, w) =>
    let w := emit Call.glfwTerminate w
    { exitCode := some 0, world := w }

/-! ## Classes of calls -/

/-- A geometry upload. -/
def Call.isUpload : Call → Bool
  | Call.glBufferData _ _ _ _ => true
  | _ => false

/-- A call that clears, draws or presents a frame. -/
def Call.isFrameCall : Call → Bool
  | Call.glClearColor _ _ _ _ => true
  | Call.glClear _ => true
  | Call.glDrawElements _ _ _ _ => true
  | Call.glfwSwapBuffers => true
  | _ => false

/-- Creation of a shader unit or of a program. -/
def Call.isShaderCreation : Call → Bool
  | Call.glCreateShader _ => true
  | Call.glCreateProgram => true
  | _ => false

/-- Retrieval of a diagnostic log. -/
def Call.isInfoLogQuery : Call → Bool
  | Call.glGetShaderInfoLog _ _ => true
  | Call.glGetProgramInfoLog _ _ => true
  | _ => false

/-- A `std::cout` output. -/
def Call.isPrint : Call → Bool
  | Call.cout _ => true
  | _ => false

/-! ## Call sequences of the program's phases -/

/-- Calls of `main` up to and including `glfwCreateWindow`. -/
def startupCalls (env : Env) : List Call :=
  [ Call.glGetIntegerv GLenum.GL_MAX_VERTEX_ATTRIBS env.nrAttributes,
    Call.cout [Printed.str "Maximum nr of vertex attributes supported: ",
      Printed.int env.nrAttributes, Printed.endl],
    Call.glfwInit,
    Call.glfwWindowHint GLFWconst.GLFW_CONTEXT_VERSION_MAJOR (HintValue.num 3),
    Call.glfwWindowHint GLFWconst.GLFW_CONTEXT_VERSION_MINOR (HintValue.num 3),
    Call.glfwWindowHint GLFWconst.GLFW_OPENGL_PROFILE
      (HintValue.const GLFWconst.GLFW_OPENGL_CORE_PROFILE) ] ++
  (if env.apple then
    [Call.glfwWindowHint GLFWconst.GLFW_OPENGL_FORWARD_COMPAT HintValue.GL_TRUE]
   else []) ++
  [ Call.glfwCreateWindow 800 600 "LearnOpenGL" ]

/-- Calls between window creation and the loader check. -/
def contextCalls : List Call :=
  [ Call.glfwMakeContextCurrent, Call.glfwSetFramebufferSizeCallback, Call.gladLoadGLLoader ]

/-- Diagnostic retrieval and print of the vertex stage. -/
def vertexDiagnostic (env : Env) : List Call :=
  [ Call.glGetShaderInfoLog env.vertexShader 512,
    Call.cout [Printed.str "ERROR::SHADER::VERTEX::COMPILATION_FAILED\n",
      Printed.chars (infoLogText 512 env.vertexInfoLog), Printed.endl] ]

/-- Diagnostic retrieval and print of the fragment stage. -/
def fragmentDiagnostic (env : Env) : List Call :=
  [ Call.glGetShaderInfoLog env.fragmentShader 512,
    Call.cout [Printed.str "ERROR::SHADER::FRAGMENT::COMPILATION_FAILED\n",
      Printed.chars (infoLogText 512 env.fragmentInfoLog), Printed.endl] ]

/-- Diagnostic retrieval and print of the link stage. -/
def linkDiagnostic (env : Env) : List Call :=
  [ Call.glGetProgramInfoLog env.shaderProgram 512,
    Call.cout [Printed.str "ERROR::SHADER::PROGRAM::LINKING_FAILED\n",
      Printed.chars (infoLogText 512 env.programInfoLog), Printed.endl] ]

/-- Calls of the vertex-shader stage. -/
def vertexShaderCalls (env : Env) : List Call :=
  [ Call.glCreateShader GLenum.GL_VERTEX_SHADER,
    Call.glShaderSource env.vertexShader 1 vertexShaderSource,
    Call.glCompileShader env.vertexShader,
    Call.glGetShaderiv env.vertexShader GLenum.GL_COMPILE_STATUS ] ++
  (if env.vertexCompileStatus = 0 then vertexDiagnostic env else [])

/-- Calls of the fragment-shader stage. -/
def fragmentShaderCalls (env : Env) : List Call :=
  [ Call.glCreateShader GLenum.GL_FRAGMENT_SHADER,
    Call.glShaderSource env.fragmentShader 1 fragmentShaderSource,
    Call.glCompileShader env.fragmentShader,
    Call.glGetShaderiv env.fragmentShader GLenum.GL_COMPILE_STATUS ] ++
  (if env.fragmentCompileStatus = 0 then fragmentDiagnostic env else [])

/-- Calls of the program stage, up to the link diagnostic. -/
def programCalls (env : Env) : List Call :=
  [ Call.glCreateProgram,
    Call.glAttachShader env.shaderProgram env.vertexShader,
    Call.glAttachShader env.shaderProgram env.fragmentShader,
    Call.glLinkProgram env.shaderProgram,
    Call.glGetProgramiv env.shaderProgram GLenum.GL_LINK_STATUS ] ++
  (if env.linkStatus = 0 then linkDiagnostic env else [])

/-- The two shader deletions. -/
def deleteCalls (env : Env) : List Call :=
  [ Call.glDeleteShader env.vertexShader, Call.glDeleteShader env.fragmentShader ]

/-- Calls of the geometry upload. -/
def geometryCalls (env : Env) : List Call :=
  [ Call.glGenBuffers 1,
    Call.glGenVertexArrays 1,
    Call.glGenBuffers 1,
    Call.glBindVertexArray env.VAO,
    Call.glBindBuffer GLenum.GL_ARRAY_BUFFER env.VBO,
    Call.glBufferData GLenum.GL_ARRAY_BUFFER 60 (BufferData.floats vertices)
      GLenum.GL_STATIC_DRAW,
    Call.glBindBuffer GLenum.GL_ELEMENT_ARRAY_BUFFER env.EBO,
    Call.glBufferData GLenum.GL_ELEMENT_ARRAY_BUFFER 36 (BufferData.uints indices)
      GLenum.GL_STATIC_DRAW,
    Call.glVertexAttribPointer 0 3 GLenum.GL_FLOAT false 12 0,
    Call.glEnableVertexAttribArray 0 ]

/-- Every call of `main` before the render loop, when window and loader succeed. -/
def setupCalls (env : Env) : List Call :=
  startupCalls env ++ contextCalls ++ vertexShaderCalls env ++ fragmentShaderCalls env ++
    programCalls env ++ deleteCalls env ++ geometryCalls env

/-- Calls of one `processInput`. -/
def processInputCalls (key : Int) : List Call :=
  Call.glfwGetKey GLFWconst.GLFW_KEY_ESCAPE key ::
    (if key = GLFW_PRESS then [Call.glfwSetWindowShouldClose true] else [])

/-- Calls of one `glfwPollEvents`, the callbacks it runs included. -/
def pollCalls (ev : Events) : List Call :=
  Call.glfwPollEvents :: ev.resizes.map (fun wh => Call.glViewport 0 0 wh.1 wh.2)

/-- The five device calls of a frame followed by the buffer swap. -/
def drawCalls (shaderProgram VAO : Nat) (count : Int) : List Call :=
  [ Call.glClearColor 0.2 0.3 0.3 1.0,
    Call.glClear GLenum.GL_COLOR_BUFFER_BIT,
    Call.glUseProgram shaderProgram,
    Call.glBindVertexArray VAO,
    Call.glDrawElements GLenum.GL_TRIANGLES count GLenum.GL_UNSIGNED_INT 0,
    Call.glfwSwapBuffers ]

/-- Calls of the loop body in iteration `i`. -/
def frameCalls (env : Env) (shaderProgram VAO : Nat) (count : Int) (i : Nat) : List Call :=
  processInputCalls (env.escapeKey i) ++ drawCalls shaderProgram VAO count ++
    pollCalls (env.events i)

/-- Calls of `n` consecutive complete iterations starting with iteration `i`: each is the
loop condition answering `false` followed by the body. -/
def iterationsCalls (env : Env) (shaderProgram VAO : Nat) (count : Int) :
    Nat → Nat → List Call
  | 0, _ => []
  | n + 1, i =>
    Call.glfwWindowShouldClose false :: frameCalls env shaderProgram VAO count i ++
      iterationsCalls env shaderProgram VAO count n (i + 1)

/-- Whether iteration `i` raises the close-request flag: the escape key is reported
pressed, or the poll delivers a close request. -/
def closeTrigger (env : Env) (i : Nat) : Bool :=
  decide (env.escapeKey i = GLFW_PRESS) || (env.events i).closeRequested

/-- State in which the render loop of a successful setup starts. -/
def setupWorld (env : Env) : World :=
  { shouldClose := env.shouldCloseAtCreation, viewport := none, calls := setupCalls env }

/-! ## Concrete runs -/

/-- Everything succeeds; the escape key is reported pressed in the second iteration. -/
def escapeInSecondFrame : Env :=
  { nrAttributes := 0, apple := false, windowCreated := true, shouldCloseAtCreation := false,
    gladLoaded := 1,
    vertexShader := 1, vertexCompileStatus := 1, vertexInfoLog := [],
    fragmentShader := 2, fragmentCompileStatus := 1, fragmentInfoLog := [],
    shaderProgram := 3, linkStatus := 1, programInfoLog := [],
    VBO := 1, VAO := 1, EBO := 2,
    escapeKey := fun i => if i = 1 then GLFW_PRESS else GLFW_RELEASE,
    events := fun _ => { resizes := [], closeRequested := false } }

/-- Both compilations and the link fail; the window system asks to close during the
first poll; no key is ever pressed. -/
def closeOnFirstPoll : Env :=
  { nrAttributes := 0, apple := false, windowCreated := true, shouldCloseAtCreation := false,
    gladLoaded := 1,
    vertexShader := 1, vertexCompileStatus := 0, vertexInfoLog := ['e', 'r', 'r'],
    fragmentShader := 2, fragmentCompileStatus := 0, fragmentInfoLog := ['e', 'r', 'r'],
    shaderProgram := 3, linkStatus := 0, programInfoLog := ['e', 'r', 'r'],
    VBO := 1, VAO := 1, EBO := 2,
    escapeKey := fun _ => GLFW_RELEASE,
    events := fun _ => { resizes := [], closeRequested := true } }

/-- The state before `main` has made any call. -/
def initialWorld : World :=
  { shouldClose := false, viewport := none, calls := [] }

/-! ## Basic lemmas -/

@[simp]
theorem emit_calls (c : Call) (w : World) : (emit c w).calls = w.calls ++ [c] := rfl

@[simp]
theorem emit_shouldClose (c : Call) (w : World) :
    (emit c w).shouldClose = w.shouldClose := rfl

@[simp]
theorem emit_viewport (c : Call) (w : World) : (emit c w).viewport = w.viewport := rfl

theorem resizes_calls (rs : List (Int × Int)) (w : World) :
    (rs.foldl (fun w wh => framebuffer_size_callback wh.1 wh.2 w) w).calls =
      w.calls ++ rs.map (fun wh => Call.glViewport 0 0 wh.1 wh.2) := by
  induction rs generalizing w with
  | nil => simp
  | cons r rs ih =>
    rw [List.foldl_cons, ih]
    simp [framebuffer_size_callback, glViewport]

theorem resizes_shouldClose (rs : List (Int × Int)) (w : World) :
    (rs.foldl (fun w wh => framebuffer_size_callback wh.1 wh.2 w) w).shouldClose =
      w.shouldClose := by
  induction rs generalizing w with
  | nil => simp
  | cons r rs ih =>
    rw [List.foldl_cons, ih]
    simp [framebuffer_size_callback, glViewport]

theorem processInput_calls (key : Int) (w : World) :
    (processInput key w).calls = w.calls ++ processInputCalls key := by
  unfold processInput processInputCalls
  by_cases h : key = GLFW_PRESS <;> simp [h, glfwSetWindowShouldClose]

theorem processInput_shouldClose (key : Int) (w : World) :
    (processInput key w).shouldClose = (w.shouldClose || decide (key = GLFW_PRESS)) := by
  unfold processInput
  by_cases h : key = GLFW_PRESS <;> simp [h, glfwSetWindowShouldClose]

theorem glfwPollEvents_calls (ev : Events) (w : World) :
    (glfwPollEvents ev w).calls = w.calls ++ pollCalls ev := by
  unfold glfwPollEvents pollCalls
  by_cases h : ev.closeRequested = true <;> simp [h, resizes_calls]

theorem glfwPollEvents_shouldClose (ev : Events) (w : World) :
    (glfwPollEvents ev w).shouldClose = (w.shouldClose || ev.closeRequested) := by
  unfold glfwPollEvents
  by_cases h : ev.closeRequested = true <;> simp [h, resizes_shouldClose]

theorem renderFrame_calls (env : Env) (p v : Nat) (c : Int) (i : Nat) (w : World) :
    (renderFrame env p v c i w).calls = w.calls ++ frameCalls env p v c i := by
  simp [renderFrame, frameCalls, drawCalls, glfwPollEvents_calls, processInput_calls]

theorem renderFrame_shouldClose (env : Env) (p v : Nat) (c : Int) (i : Nat) (w : World) :
    (renderFrame env p v c i w).shouldClose = (w.shouldClose || closeTrigger env i) := by
  simp [renderFrame, closeTrigger, glfwPollEvents_shouldClose, processInput_shouldClose,
    Bool.or_assoc]

/-- Shape of the loop trace: some number of complete iterations, then the final check
answering `true` if the loop was left. -/
theorem renderLoop_calls (env : Env) (p v : Nat) (c : Int) (fuel : Nat) :
    ∀ (i : Nat) (w : World), ∃ n, n ≤ fuel ∧
      ((renderLoop env p v c fuel i w).1 = false → n = fuel) ∧
      (renderLoop env p v c fuel i w).2.calls =
        w.calls ++ iterationsCalls env p v c n i ++
          (if (renderLoop env p v c fuel i w).1 then [Call.glfwWindowShouldClose true]
           else []) := by
  induction fuel with
  | zero => intro i w; exact ⟨0, le_refl _, fun _ => rfl, by simp [renderLoop, iterationsCalls]⟩
  | succ fuel ih =>
    intro i w
    by_cases h : w.shouldClose = true
    · refine ⟨0, Nat.zero_le _, ?_, ?_⟩
      · simp [renderLoop, h]
      · simp [renderLoop, h, iterationsCalls]
    · have hf : w.shouldClose = false := by simpa using h
      obtain ⟨n, hn, hout, hcalls⟩ :=
        ih (i + 1) (renderFrame env p v c i (emit (Call.glfwWindowShouldClose false) w))
      refine ⟨n + 1, Nat.succ_le_succ hn, ?_, ?_⟩
      · intro hres
        simp only [renderLoop, emit_shouldClose, hf] at hres
        simp at hres
        rw [hout hres]
      · simp only [renderLoop, emit_shouldClose, hf]
        simp only [Bool.false_eq_true, if_false]
        rw [hcalls, renderFrame_calls]
        simp [iterationsCalls]

/-- The loop is left within `fuel` checks exactly when the flag is raised early enough. -/
theorem renderLoop_finished (env : Env) (p v : Nat) (c : Int) (fuel : Nat) :
    ∀ (i : Nat) (w : World),
      (renderLoop env p v c fuel i w).1 = true ↔
        ∃ k, k < fuel ∧ (w.shouldClose = true ∨ ∃ j, j < k ∧ closeTrigger env (i + j) = true) := by
  induction fuel with
  | zero => intro i w; simp [renderLoop]
  | succ fuel ih =>
    intro i w
    by_cases h : w.shouldClose = true
    · simp only [renderLoop, emit_shouldClose, h, if_true, true_iff]
      exact ⟨0, Nat.succ_pos _, Or.inl trivial⟩
    · have hf : w.shouldClose = false := by simpa using h
      simp only [renderLoop, emit_shouldClose, hf, Bool.false_eq_true, if_false, false_or]
      rw [ih, renderFrame_shouldClose]
      simp only [emit_shouldClose, hf, Bool.false_or]
      constructor
      · rintro ⟨k, hk, hc | ⟨j, hj, hc⟩⟩
        · exact ⟨k + 1, Nat.succ_lt_succ hk, 0, Nat.succ_pos _, by simpa using hc⟩
        · exact ⟨k + 1, Nat.succ_lt_succ hk, j + 1, Nat.succ_lt_succ hj, by
            rw [← hc]; congr 1; omega⟩
      · rintro ⟨k, hk, j, hj, hc⟩
        cases j with
        | zero =>
          cases k with
          | zero => omega
          | succ k => exact ⟨k, by omega, Or.inl (by simpa using hc)⟩
        | succ j =>
          cases k with
          | zero => omega
          | succ k =>
            exact ⟨k, by omega, Or.inr ⟨j, by omega, by rw [← hc]; congr 1; omega⟩⟩

/-! ## The three paths through `main` -/

theorem setup_world_eq (env : Env) (w : World) (hs : w.shouldClose = env.shouldCloseAtCreation)
    (hv : w.viewport = none) (hc : w.calls = setupCalls env) : w = setupWorld env := by
  cases w; simp_all [setupWorld]

theorem main_windowFailed (fuel : Nat) (env : Env) (h : env.windowCreated = false) :
    main fuel env =
      { exitCode := some (-1),
        world := { shouldClose := false, viewport := none,
                   calls := startupCalls env ++
                    [ Call.cout [Printed.str "Failed to create GLFW window", Printed.endl],
                      Call.glfwTerminate ] } } := by
  by_cases ha : env.apple = true <;>
    simp [main, h, ha, emit, startupCalls, SCR_WIDTH, SCR_HEIGHT]

theorem main_loaderFailed (fuel : Nat) (env : Env) (h : env.windowCreated = true)
    (hg : env.gladLoaded = 0) :
    main fuel env =
      { exitCode := some (-1),
        world := { shouldClose := env.shouldCloseAtCreation, viewport := none,
                   calls := startupCalls env ++ contextCalls ++
                    [ Call.cout [Printed.str "Failed to initialize GLAD", Printed.endl] ] } } := by
  by_cases ha : env.apple = true <;>
    simp [main, h, hg, ha, emit, startupCalls, contextCalls, SCR_WIDTH, SCR_HEIGHT]

theorem main_ok (fuel : Nat) (env : Env) (h : env.windowCreated = true)
    (hg : env.gladLoaded ≠ 0) :
    main fuel env =
      if (renderLoop env env.shaderProgram env.VAO verticesLength fuel 0 (setupWorld env)).1
      then { exitCode := some 0,
             world := emit Call.glfwTerminate
              (renderLoop env env.shaderProgram env.VAO verticesLength fuel 0
                (setupWorld env)).2 }
      else { exitCode := none,
             world := (renderLoop env env.shaderProgram env.VAO verticesLength fuel 0
                (setupWorld env)).2 } := by
  have key : ∀ w : World, w = setupWorld env →
      (match renderLoop env env.shaderProgram env.VAO verticesLength fuel 0 w with
        | (false, w) => ({ exitCode := none, world := w } : Run)
        | (true, w) => { exitCode := some 0, world := emit Call.glfwTerminate w }) =
      if (renderLoop env env.shaderProgram env.VAO verticesLength fuel 0 (setupWorld env)).1
      then { exitCode := some 0,
             world := emit Call.glfwTerminate
              (renderLoop env env.shaderProgram env.VAO verticesLength fuel 0
                (setupWorld env)).2 }
      else { exitCode := none,
             world := (renderLoop env env.shaderProgram env.VAO verticesLength fuel 0
                (setupWorld env)).2 } := by
    intro w hw
    subst hw
    cases hr : renderLoop env env.shaderProgram env.VAO verticesLength fuel 0 (setupWorld env)
      with
    | mk b w => cases b <;> simp
  unfold main
  simp only [h, hg, if_false, Bool.true_eq_false]
  apply key
  apply setup_world_eq
  · by_cases hv : env.vertexCompileStatus = 0 <;>
      by_cases hf : env.fragmentCompileStatus = 0 <;> by_cases hl : env.linkStatus = 0 <;>
      simp [hv, hf, hl]
  · by_cases ha : env.apple = true <;> by_cases hv : env.vertexCompileStatus = 0 <;>
      by_cases hf : env.fragmentCompileStatus = 0 <;> by_cases hl : env.linkStatus = 0 <;>
      simp [ha, hv, hf, hl]
  · by_cases ha : env.apple = true <;> by_cases hv : env.vertexCompileStatus = 0 <;>
      by_cases hf : env.fragmentCompileStatus = 0 <;> by_cases hl : env.linkStatus = 0 <;>
      simp [ha, hv, hf, hl, emit, setupCalls, startupCalls, contextCalls, vertexShaderCalls,
        fragmentShaderCalls, programCalls, deleteCalls, geometryCalls, vertexDiagnostic,
        fragmentDiagnostic, linkDiagnostic, SCR_WIDTH, SCR_HEIGHT, vertices, indices,
        sizeofFloat, sizeofUnsignedInt]

/-! ## Membership in the loop trace -/

theorem mem_frameCalls {env : Env} {p v : Nat} {cnt : Int} {i : Nat} {c : Call}
    (h : c ∈ frameCalls env p v cnt i) :
    c = Call.glfwGetKey GLFWconst.GLFW_KEY_ESCAPE (env.escapeKey i) ∨
    c = Call.glfwSetWindowShouldClose true ∨
    c ∈ drawCalls p v cnt ∨
    c = Call.glfwPollEvents ∨
    ∃ W H, c = Call.glViewport 0 0 W H := by
  simp only [frameCalls, processInputCalls, pollCalls, List.mem_append, List.mem_cons,
    List.mem_map] at h
  rcases h with ((h | h) | h) | h | ⟨wh, -, h⟩
  · left; exact h
  · split_ifs at h
    · simp at h; right; left; exact h
    · simp at h
  · right; right; left; exact h
  · right; right; right; left; exact h
  · right; right; right; right; exact ⟨wh.1, wh.2, h.symm⟩

theorem mem_iterationsCalls {env : Env} {p v : Nat} {cnt : Int} {c : Call} (n : Nat) :
    ∀ i, c ∈ iterationsCalls env p v cnt n i →
      c = Call.glfwWindowShouldClose false ∨ ∃ k, c ∈ frameCalls env p v cnt k := by
  induction n with
  | zero => intro i h; simp [iterationsCalls] at h
  | succ n ih =>
    intro i h
    simp only [iterationsCalls, List.mem_cons, List.mem_append] at h
    rcases h with (h | h) | h
    · exact Or.inl h
    · exact Or.inr ⟨i, h⟩
    · exact ih (i + 1) h

/-- Calls a running loop can make: the condition, and the calls of a frame. -/
theorem mem_loop {env : Env} {p v : Nat} {cnt : Int} {c : Call} {n i : Nat}
    (h : c ∈ iterationsCalls env p v cnt n i) :
    (∃ b, c = Call.glfwWindowShouldClose b) ∨
    (∃ k, c = Call.glfwGetKey GLFWconst.GLFW_KEY_ESCAPE k) ∨
    c = Call.glfwSetWindowShouldClose true ∨
    c ∈ drawCalls p v cnt ∨
    c = Call.glfwPollEvents ∨
    ∃ W H, c = Call.glViewport 0 0 W H := by
  rcases mem_iterationsCalls n i h with h | ⟨k, h⟩
  · left; exact ⟨false, h⟩
  · right
    rcases mem_frameCalls h with h | h | h | h | h
    · left; exact ⟨_, h⟩
    · right; left; exact h
    · right; right; left; exact h
    · right; right; right; left; exact h
    · right; right; right; right; exact h

/-- Trace of `main` when window and loader succeed: the setup, some complete iterations,
and, if the loop was left, the final check and `glfwTerminate`. -/
theorem main_ok_calls (fuel : Nat) (env : Env) (h : env.windowCreated = true)
    (hg : env.gladLoaded ≠ 0) :
    ∃ n ending, n ≤ fuel ∧
      (main fuel env).world.calls =
        setupCalls env ++ iterationsCalls env env.shaderProgram env.VAO verticesLength n 0 ++
          ending ∧
      (((main fuel env).exitCode = none ∧ ending = [] ∧ n = fuel) ∨
       ((main fuel env).exitCode = some 0 ∧
          ending = [Call.glfwWindowShouldClose true, Call.glfwTerminate])) := by
  obtain ⟨n, hn, hout, hcalls⟩ :=
    renderLoop_calls env env.shaderProgram env.VAO verticesLength fuel 0 (setupWorld env)
  rw [main_ok fuel env h hg]
  by_cases hfin :
      (renderLoop env env.shaderProgram env.VAO verticesLength fuel 0 (setupWorld env)).1 = true
  · refine ⟨n, [Call.glfwWindowShouldClose true, Call.glfwTerminate], hn, ?_, Or.inr ?_⟩
    · simp only [hfin, if_true, emit_calls] at hcalls ⊢
      rw [hcalls]; simp [setupWorld]
    · simp [hfin]
  · have hfalse : (renderLoop env env.shaderProgram env.VAO verticesLength fuel 0
        (setupWorld env)).1 = false := by simpa using hfin
    refine ⟨n, [], hn, ?_, Or.inl ?_⟩
    · simp only [hfalse, Bool.false_eq_true, if_false] at hcalls ⊢
      rw [hcalls]; simp [setupWorld]
    · simp [hfalse, hout hfalse]

/-! ## Calls that never occur outside their phase -/

theorem verticesLength_eq : verticesLength = 9 := by decide

theorem numberTriangles_eq : numberTriangles = 27 := by decide

theorem draw_not_mem_setupCalls (env : Env) (m : GLenum) (n : Int) (t : GLenum) (o : Nat) :
    Call.glDrawElements m n t o ∉ setupCalls env := by
  by_cases ha : env.apple = true <;> by_cases hv : env.vertexCompileStatus = 0 <;>
    by_cases hf : env.fragmentCompileStatus = 0 <;> by_cases hl : env.linkStatus = 0 <;>
    simp [ha, hv, hf, hl, setupCalls, startupCalls, contextCalls, vertexShaderCalls,
      fragmentShaderCalls, programCalls, deleteCalls, geometryCalls, vertexDiagnostic,
      fragmentDiagnostic, linkDiagnostic]

theorem mem_draw_loop {env : Env} {p v : Nat} {cnt : Int} {n i : Nat} {m : GLenum} {k : Int}
    {t : GLenum} {o : Nat}
    (h : Call.glDrawElements m k t o ∈ iterationsCalls env p v cnt n i) :
    m = GLenum.GL_TRIANGLES ∧ k = cnt ∧ t = GLenum.GL_UNSIGNED_INT ∧ o = 0 := by
  rcases mem_loop h with ⟨b, h⟩ | ⟨b, h⟩ | h | h | h | ⟨W, H, h⟩
  · cases h
  · cases h
  · cases h
  · simpa [drawCalls] using h
  · cases h
  · cases h

/-- C1: for the sample geometry of `main` (15 vertex floats, indices 0,1,3, 1,2,3, 0,4,1),
every `glDrawElements` call that any run of `main` issues draws triangles with count 9,
the number of indices (not 3, not 5, not `numberTriangles`), index type
`GL_UNSIGNED_INT` and offset 0. -/
theorem C1_draw_requests_nine_indices (fuel : Nat) (env : Env) (mode : GLenum) (count : Int)
    (type : GLenum) (offset : Nat)
    (h : Call.glDrawElements mode count type offset ∈ (main fuel env).world.calls) :
    indices = [0, 1, 3, 1, 2, 3, 0, 4, 1] ∧ vertices.length = 5 * 3 ∧
    mode = GLenum.GL_TRIANGLES ∧
    count = 9 ∧ count = indices.length ∧
    count ≠ 3 ∧ count ≠ 5 ∧ count ≠ numberTriangles ∧
    type = GLenum.GL_UNSIGNED_INT ∧ offset = 0 := by
  have hcount : mode = GLenum.GL_TRIANGLES ∧ count = verticesLength ∧
      type = GLenum.GL_UNSIGNED_INT ∧ offset = 0 := by
    by_cases hw : env.windowCreated = true
    · by_cases hg : env.gladLoaded = 0
      · rw [main_loaderFailed fuel env hw hg] at h
        by_cases ha : env.apple = true <;> simp [startupCalls, contextCalls, ha] at h
      · obtain ⟨n, ending, -, hcalls, hend⟩ := main_ok_calls fuel env hw hg
        rw [hcalls] at h
        simp only [List.mem_append] at h
        rcases h with (h | h) | h
        · exact absurd h (draw_not_mem_setupCalls env _ _ _ _)
        · exact mem_draw_loop h
        · rcases hend with ⟨-, he, -⟩ | ⟨-, he⟩ <;> simp [he] at h
    · have hw' : env.windowCreated = false := by simpa using hw
      rw [main_windowFailed fuel env hw'] at h
      by_cases ha : env.apple = true <;> simp [startupCalls, ha] at h
  obtain ⟨hm, hc, ht, ho⟩ := hcount
  subst hc
  refine ⟨rfl, rfl, hm, ?_, ?_, ?_, ?_, ?_, ht, ho⟩ <;> decide

/-- Witness for C1: the run `escapeInSecondFrame` does issue the draw call. -/
theorem C1_witness :
    Call.glDrawElements GLenum.GL_TRIANGLES 9 GLenum.GL_UNSIGNED_INT 0 ∈
        (main 3 escapeInSecondFrame).world.calls ∧
      (9 : Int) = indices.length ∧ (9 : Int) ≠ numberTriangles :=
  have h := C1_draw_requests_nine_indices 3 escapeInSecondFrame GLenum.GL_TRIANGLES 9
    GLenum.GL_UNSIGNED_INT 0 (by decide)
  ⟨by decide, h.2.2.2.2.1, h.2.2.2.2.2.2.2.1⟩

theorem mem_bufferData_setupCalls {env : Env} {t : GLenum} {s : Nat} {d : BufferData}
    {u : GLenum} (h : Call.glBufferData t s d u ∈ setupCalls env) :
    (t = GLenum.GL_ARRAY_BUFFER ∧ s = 60 ∧ d = BufferData.floats vertices ∧
        u = GLenum.GL_STATIC_DRAW) ∨
    (t = GLenum.GL_ELEMENT_ARRAY_BUFFER ∧ s = 36 ∧ d = BufferData.uints indices ∧
        u = GLenum.GL_STATIC_DRAW) := by
  by_cases ha : env.apple = true <;> by_cases hv : env.vertexCompileStatus = 0 <;>
    by_cases hf : env.fragmentCompileStatus = 0 <;> by_cases hl : env.linkStatus = 0 <;>
    simpa [ha, hv, hf, hl, setupCalls, startupCalls, contextCalls, vertexShaderCalls,
      fragmentShaderCalls, programCalls, deleteCalls, geometryCalls, vertexDiagnostic,
      fragmentDiagnostic, linkDiagnostic] using h

theorem bufferData_not_mem_loop {env : Env} {p v : Nat} {cnt : Int} {n i : Nat} {t : GLenum}
    {s : Nat} {d : BufferData} {u : GLenum} :
    Call.glBufferData t s d u ∉ iterationsCalls env p v cnt n i := by
  intro h
  rcases mem_loop h with ⟨b, h⟩ | ⟨b, h⟩ | h | h | h | ⟨W, H, h⟩
  · cases h
  · cases h
  · cases h
  · simp [drawCalls] at h
  · cases h
  · cases h

/-- Every upload any run of `main` makes is one of the two of the geometry phase. -/
theorem mem_bufferData_main {fuel : Nat} {env : Env} {t : GLenum} {s : Nat} {d : BufferData}
    {u : GLenum} (h : Call.glBufferData t s d u ∈ (main fuel env).world.calls) :
    (t = GLenum.GL_ARRAY_BUFFER ∧ s = 60 ∧ d = BufferData.floats vertices ∧
        u = GLenum.GL_STATIC_DRAW) ∨
    (t = GLenum.GL_ELEMENT_ARRAY_BUFFER ∧ s = 36 ∧ d = BufferData.uints indices ∧
        u = GLenum.GL_STATIC_DRAW) := by
  by_cases hw : env.windowCreated = true
  · by_cases hg : env.gladLoaded = 0
    · rw [main_loaderFailed fuel env hw hg] at h
      by_cases ha : env.apple = true <;> simp [startupCalls, contextCalls, ha] at h
    · obtain ⟨n, ending, -, hcalls, hend⟩ := main_ok_calls fuel env hw hg
      rw [hcalls] at h
      simp only [List.mem_append] at h
      rcases h with (h | h) | h
      · exact mem_bufferData_setupCalls h
      · exact absurd h bufferData_not_mem_loop
      · rcases hend with ⟨-, he, -⟩ | ⟨-, he⟩ <;> simp [he] at h
  · have hw' : env.windowCreated = false := by simpa using hw
    rw [main_windowFailed fuel env hw'] at h
    by_cases ha : env.apple = true <;> simp [startupCalls, ha] at h

/-- Calls of the setup occur in every run that gets past the loader check. -/
theorem mem_main_of_mem_setupCalls {fuel : Nat} {env : Env} (hw : env.windowCreated = true)
    (hg : env.gladLoaded ≠ 0) {c : Call} (h : c ∈ setupCalls env) :
    c ∈ (main fuel env).world.calls := by
  obtain ⟨n, ending, -, hcalls, -⟩ := main_ok_calls fuel env hw hg
  rw [hcalls]
  simp [h]

/-- C2: in every run of `main`, whenever an index list and a vertex array have been
uploaded, the vertex array has 15 floats, hence 15 / 3 = 5 vertices, and every uploaded
index is strictly below that vertex count. -/
theorem C2_indices_below_vertex_count (fuel : Nat) (env : Env)
    (tI : GLenum) (sI : Nat) (xs : List Nat) (uI : GLenum)
    (tV : GLenum) (sV : Nat) (vs : List Rat) (uV : GLenum)
    (hI : Call.glBufferData tI sI (BufferData.uints xs) uI ∈ (main fuel env).world.calls)
    (hV : Call.glBufferData tV sV (BufferData.floats vs) uV ∈ (main fuel env).world.calls) :
    xs = indices ∧ vs = vertices ∧ vs.length = 15 ∧ vs.length / 3 = 5 ∧
      ∀ i ∈ xs, i < vs.length / 3 := by
  have hxs : xs = indices := by
    rcases mem_bufferData_main hI with ⟨-, -, hd, -⟩ | ⟨-, -, hd, -⟩
    · cases hd
    · injection hd
  have hvs : vs = vertices := by
    rcases mem_bufferData_main hV with ⟨-, -, hd, -⟩ | ⟨-, -, hd, -⟩
    · injection hd
    · cases hd
  subst hxs hvs
  refine ⟨rfl, rfl, rfl, rfl, ?_⟩
  decide

/-- Witness for C2: the run `escapeInSecondFrame` uploads both arrays, and index 4, the
largest, is below the vertex count 5. -/
theorem C2_witness :
    indices = [0, 1, 3, 1, 2, 3, 0, 4, 1] ∧ vertices.length / 3 = 5 ∧
      ∀ i ∈ indices, i < vertices.length / 3 :=
  have h := C2_indices_below_vertex_count 0 escapeInSecondFrame
    GLenum.GL_ELEMENT_ARRAY_BUFFER 36 indices GLenum.GL_STATIC_DRAW
    GLenum.GL_ARRAY_BUFFER 60 vertices GLenum.GL_STATIC_DRAW
    (mem_main_of_mem_setupCalls rfl (by decide) (by simp [setupCalls, geometryCalls]))
    (mem_main_of_mem_setupCalls rfl (by decide) (by simp [setupCalls, geometryCalls]))
  ⟨rfl, h.2.2.2.1, h.2.2.2.2⟩

/-- C3: when window and loader succeed, `main` uploads the vertex array to
`GL_ARRAY_BUFFER` with byte size `count(vertices) * 4` (15 floats, 60 bytes) and the index
array to `GL_ELEMENT_ARRAY_BUFFER` with byte size `count(indices) * 4` (9 indices, 36
bytes), both with `GL_STATIC_DRAW`, each right after binding its own buffer to that
target; no run makes any other upload. -/
theorem C3_upload_byte_sizes (fuel : Nat) (env : Env) (hw : env.windowCreated = true)
    (hg : env.gladLoaded ≠ 0) :
    (∃ before after, (main fuel env).world.calls = before ++
        [ Call.glBindBuffer GLenum.GL_ARRAY_BUFFER env.VBO,
          Call.glBufferData GLenum.GL_ARRAY_BUFFER (vertices.length * 4)
            (BufferData.floats vertices) GLenum.GL_STATIC_DRAW,
          Call.glBindBuffer GLenum.GL_ELEMENT_ARRAY_BUFFER env.EBO,
          Call.glBufferData GLenum.GL_ELEMENT_ARRAY_BUFFER (indices.length * 4)
            (BufferData.uints indices) GLenum.GL_STATIC_DRAW ] ++ after) ∧
    vertices.length = 15 ∧ vertices.length * 4 = 60 ∧
    indices.length = 9 ∧ indices.length * 4 = 36 ∧
    sizeofFloat = 4 ∧ sizeofUnsignedInt = 4 ∧
    ∀ t s d u, Call.glBufferData t s d u ∈ (main fuel env).world.calls →
      (t = GLenum.GL_ARRAY_BUFFER ∧ s = vertices.length * 4 ∧
          d = BufferData.floats vertices ∧ u = GLenum.GL_STATIC_DRAW) ∨
      (t = GLenum.GL_ELEMENT_ARRAY_BUFFER ∧ s = indices.length * 4 ∧
          d = BufferData.uints indices ∧ u = GLenum.GL_STATIC_DRAW) := by
  refine ⟨?_, rfl, rfl, rfl, rfl, rfl, rfl, ?_⟩
  · obtain ⟨n, ending, -, hcalls, -⟩ := main_ok_calls fuel env hw hg
    refine ⟨startupCalls env ++ contextCalls ++ vertexShaderCalls env ++
        fragmentShaderCalls env ++ programCalls env ++ deleteCalls env ++
        [ Call.glGenBuffers 1, Call.glGenVertexArrays 1, Call.glGenBuffers 1,
          Call.glBindVertexArray env.VAO ],
      [ Call.glVertexAttribPointer 0 3 GLenum.GL_FLOAT false 12 0,
        Call.glEnableVertexAttribArray 0 ] ++
        iterationsCalls env env.shaderProgram env.VAO verticesLength n 0 ++ ending, ?_⟩
    rw [hcalls]
    simp [setupCalls, geometryCalls, vertices, indices]
  · intro t s d u h
    exact mem_bufferData_main h

/-- Witness for C3: the hypotheses hold in the run `escapeInSecondFrame`, which makes the
60-byte vertex upload. -/
theorem C3_witness :
    escapeInSecondFrame.windowCreated = true ∧ escapeInSecondFrame.gladLoaded ≠ 0 ∧
      vertices.length * 4 = 60 ∧ indices.length * 4 = 36 :=
  have h := C3_upload_byte_sizes 1 escapeInSecondFrame rfl (by decide)
  ⟨rfl, by decide, h.2.2.1, h.2.2.2.2.1⟩

/-! ## No upload and no frame call in the phases before the deletions -/

theorem startupCalls_plain (env : Env) :
    ∀ c ∈ startupCalls env,
      c.isUpload = false ∧ c.isFrameCall = false ∧ c.isShaderCreation = false := by
  by_cases ha : env.apple = true <;>
    simp [ha, startupCalls, Call.isUpload, Call.isFrameCall, Call.isShaderCreation]

theorem contextCalls_plain :
    ∀ c ∈ contextCalls,
      c.isUpload = false ∧ c.isFrameCall = false ∧ c.isShaderCreation = false := by
  simp [contextCalls, Call.isUpload, Call.isFrameCall, Call.isShaderCreation]

theorem vertexShaderCalls_plain (env : Env) :
    ∀ c ∈ vertexShaderCalls env, c.isUpload = false ∧ c.isFrameCall = false := by
  by_cases hv : env.vertexCompileStatus = 0 <;>
    simp [hv, vertexShaderCalls, vertexDiagnostic, Call.isUpload, Call.isFrameCall]

theorem fragmentShaderCalls_plain (env : Env) :
    ∀ c ∈ fragmentShaderCalls env, c.isUpload = false ∧ c.isFrameCall = false := by
  by_cases hf : env.fragmentCompileStatus = 0 <;>
    simp [hf, fragmentShaderCalls, fragmentDiagnostic, Call.isUpload, Call.isFrameCall]

theorem programCalls_plain (env : Env) :
    ∀ c ∈ programCalls env, c.isUpload = false ∧ c.isFrameCall = false := by
  by_cases hl : env.linkStatus = 0 <;>
    simp [hl, programCalls, linkDiagnostic, Call.isUpload, Call.isFrameCall]

/-- C4: when window and loader succeed, for every compile and link status `main` deletes
the vertex unit and then the fragment unit right after the link attempt (attach, attach,
link, status query, optional diagnostic); no upload and no frame call comes before the
deletions, and the geometry upload follows them. -/
theorem C4_shaders_deleted_after_link (fuel : Nat) (env : Env)
    (hw : env.windowCreated = true) (hg : env.gladLoaded ≠ 0) :
    ∃ before after,
      (main fuel env).world.calls =
        before ++
          [Call.glDeleteShader env.vertexShader, Call.glDeleteShader env.fragmentShader] ++
          after ∧
      (∃ a, before = a ++
          [ Call.glAttachShader env.shaderProgram env.vertexShader,
            Call.glAttachShader env.shaderProgram env.fragmentShader,
            Call.glLinkProgram env.shaderProgram,
            Call.glGetProgramiv env.shaderProgram GLenum.GL_LINK_STATUS ] ++
          (if env.linkStatus = 0 then linkDiagnostic env else [])) ∧
      (∀ c ∈ before, c.isUpload = false ∧ c.isFrameCall = false) ∧
      (∃ rest, after = geometryCalls env ++ rest) := by
  obtain ⟨n, ending, -, hcalls, -⟩ := main_ok_calls fuel env hw hg
  refine ⟨startupCalls env ++ contextCalls ++ vertexShaderCalls env ++
      fragmentShaderCalls env ++ programCalls env,
    geometryCalls env ++ iterationsCalls env env.shaderProgram env.VAO verticesLength n 0 ++
      ending, ?_, ?_, ?_, ?_⟩
  · rw [hcalls]; simp [setupCalls, deleteCalls]
  · exact ⟨startupCalls env ++ contextCalls ++ vertexShaderCalls env ++
      fragmentShaderCalls env ++ [Call.glCreateProgram], by simp [programCalls]⟩
  · intro c hc
    simp only [List.mem_append] at hc
    rcases hc with (((hc | hc) | hc) | hc) | hc
    · exact ⟨(startupCalls_plain env c hc).1, (startupCalls_plain env c hc).2.1⟩
    · exact ⟨(contextCalls_plain c hc).1, (contextCalls_plain c hc).2.1⟩
    · exact vertexShaderCalls_plain env c hc
    · exact fragmentShaderCalls_plain env c hc
    · exact programCalls_plain env c hc
  · exact ⟨iterationsCalls env env.shaderProgram env.VAO verticesLength n 0 ++ ending,
      by simp⟩

/-- Witness for C4: in the run `closeOnFirstPoll` the link fails, and the units with
handles 1 and 2 are still deleted. -/
theorem C4_witness :
    closeOnFirstPoll.windowCreated = true ∧ closeOnFirstPoll.gladLoaded ≠ 0 ∧
      closeOnFirstPoll.linkStatus = 0 ∧
      ∃ before after, (main 2 closeOnFirstPoll).world.calls =
        before ++ [Call.glDeleteShader 1, Call.glDeleteShader 2] ++ after :=
  have h := C4_shaders_deleted_after_link 2 closeOnFirstPoll rfl (by decide)
  ⟨rfl, by decide, rfl, h.elim fun b hb => hb.elim fun a ha => ⟨b, a, ha.1⟩⟩

/-! ## Diagnostics -/

theorem infoLogText_length (bufSize : Nat) (deviceLog : List Char) (h : 0 < bufSize) :
    (infoLogText bufSize deviceLog).length + 1 ≤ bufSize := by
  unfold infoLogText
  have := List.length_take_le (bufSize - 1) deviceLog
  omega

theorem renderLoop_head (env : Env) (p v : Nat) (c : Int) (fuel i : Nat) (w : World) :
    ∃ rest, (renderLoop env p v c (fuel + 1) i w).2.calls =
      w.calls ++ Call.glfwWindowShouldClose w.shouldClose :: rest := by
  by_cases h : w.shouldClose = true
  · exact ⟨[], by simp [renderLoop, h]⟩
  · have hf : w.shouldClose = false := by simpa using h
    obtain ⟨n, -, -, hcalls⟩ := renderLoop_calls env p v c fuel (i + 1)
      (renderFrame env p v c i (emit (Call.glfwWindowShouldClose false) w))
    refine ⟨frameCalls env p v c i ++ iterationsCalls env p v c n (i + 1) ++
      (if (renderLoop env p v c fuel (i + 1)
          (renderFrame env p v c i (emit (Call.glfwWindowShouldClose false) w))).1
        then [Call.glfwWindowShouldClose true] else []), ?_⟩
    simp only [renderLoop, emit_shouldClose, hf, Bool.false_eq_true, if_false]
    rw [hcalls, renderFrame_calls]
    simp

/-- With at least one observed check, the first call after the setup is the loop
condition, answering with the flag the window was created with. -/
theorem main_ok_head (fuel : Nat) (env : Env) (hw : env.windowCreated = true)
    (hg : env.gladLoaded ≠ 0) :
    ∃ rest, (main (fuel + 1) env).world.calls =
      setupCalls env ++ Call.glfwWindowShouldClose env.shouldCloseAtCreation :: rest := by
  obtain ⟨rest, hrest⟩ := renderLoop_head env env.shaderProgram env.VAO verticesLength fuel 0
    (setupWorld env)
  rw [main_ok (fuel + 1) env hw hg]
  split_ifs
  · exact ⟨rest ++ [Call.glfwTerminate], by rw [emit_calls, hrest]; simp [setupWorld]⟩
  · exact ⟨rest, by rw [hrest]; simp [setupWorld]⟩

theorem filter_loop_eq_nil {env : Env} {p v : Nat} {cnt : Int} {n i : Nat} (f : Call → Bool)
    (hcheck : ∀ b, f (Call.glfwWindowShouldClose b) = false)
    (hkey : ∀ k, f (Call.glfwGetKey GLFWconst.GLFW_KEY_ESCAPE k) = false)
    (hset : f (Call.glfwSetWindowShouldClose true) = false)
    (hdraw : ∀ c ∈ drawCalls p v cnt, f c = false)
    (hpoll : f Call.glfwPollEvents = false)
    (hview : ∀ W H, f (Call.glViewport 0 0 W H) = false) :
    (iterationsCalls env p v cnt n i).filter f = [] := by
  rw [List.filter_eq_nil_iff]
  intro c hc
  rcases mem_loop hc with ⟨b, h⟩ | ⟨b, h⟩ | h | h | h | ⟨W, H, h⟩
  · simp [h, hcheck]
  · simp [h, hkey]
  · simp [h, hset]
  · simp [hdraw c h]
  · simp [h, hpoll]
  · simp [h, hview]

/-- The diagnostic retrievals of a run, in order: one per failed stage. -/
theorem infoLogQueries_main (fuel : Nat) (env : Env) (hw : env.windowCreated = true)
    (hg : env.gladLoaded ≠ 0) :
    (main fuel env).world.calls.filter Call.isInfoLogQuery =
      (if env.vertexCompileStatus = 0 then [Call.glGetShaderInfoLog env.vertexShader 512]
       else []) ++
      (if env.fragmentCompileStatus = 0 then [Call.glGetShaderInfoLog env.fragmentShader 512]
       else []) ++
      (if env.linkStatus = 0 then [Call.glGetProgramInfoLog env.shaderProgram 512]
       else []) := by
  obtain ⟨n, ending, -, hcalls, hend⟩ := main_ok_calls fuel env hw hg
  have h1 : (startupCalls env).filter Call.isInfoLogQuery = [] := by
    by_cases ha : env.apple = true <;> simp [ha, startupCalls, Call.isInfoLogQuery]
  have h2 : contextCalls.filter Call.isInfoLogQuery = [] := by
    simp [contextCalls, Call.isInfoLogQuery]
  have h3 : (vertexShaderCalls env).filter Call.isInfoLogQuery =
      if env.vertexCompileStatus = 0 then [Call.glGetShaderInfoLog env.vertexShader 512]
      else [] := by
    by_cases hv : env.vertexCompileStatus = 0 <;>
      simp [hv, vertexShaderCalls, vertexDiagnostic, Call.isInfoLogQuery]
  have h4 : (fragmentShaderCalls env).filter Call.isInfoLogQuery =
      if env.fragmentCompileStatus = 0 then [Call.glGetShaderInfoLog env.fragmentShader 512]
      else [] := by
    by_cases hv : env.fragmentCompileStatus = 0 <;>
      simp [hv, fragmentShaderCalls, fragmentDiagnostic, Call.isInfoLogQuery]
  have h5 : (programCalls env).filter Call.isInfoLogQuery =
      if env.linkStatus = 0 then [Call.glGetProgramInfoLog env.shaderProgram 512]
      else [] := by
    by_cases hv : env.linkStatus = 0 <;>
      simp [hv, programCalls, linkDiagnostic, Call.isInfoLogQuery]
  have h6 : (deleteCalls env).filter Call.isInfoLogQuery = [] := by
    simp [deleteCalls, Call.isInfoLogQuery]
  have h7 : (geometryCalls env).filter Call.isInfoLogQuery = [] := by
    simp [geometryCalls, Call.isInfoLogQuery]
  have h8 : (iterationsCalls env env.shaderProgram env.VAO verticesLength n 0).filter
      Call.isInfoLogQuery = [] :=
    filter_loop_eq_nil _ (by simp [Call.isInfoLogQuery]) (by simp [Call.isInfoLogQuery])
      (by simp [Call.isInfoLogQuery]) (by simp [drawCalls, Call.isInfoLogQuery])
      (by simp [Call.isInfoLogQuery]) (by simp [Call.isInfoLogQuery])
  have h9 : ending.filter Call.isInfoLogQuery = [] := by
    rcases hend with ⟨-, he, -⟩ | ⟨-, he⟩ <;> simp [he, Call.isInfoLogQuery]
  rw [hcalls]
  simp only [setupCalls, List.filter_append, h1, h2, h3, h4, h5, h6, h7, h8, h9,
    List.append_nil, List.nil_append]

/-- Everything a run prints, in order: the attribute line, then one diagnostic per failed
stage. -/
theorem prints_main (fuel : Nat) (env : Env) (hw : env.windowCreated = true)
    (hg : env.gladLoaded ≠ 0) :
    (main fuel env).world.calls.filter Call.isPrint =
      [Call.cout [Printed.str "Maximum nr of vertex attributes supported: ",
        Printed.int env.nrAttributes, Printed.endl]] ++
      (if env.vertexCompileStatus = 0 then
        [Call.cout [Printed.str "ERROR::SHADER::VERTEX::COMPILATION_FAILED\n",
          Printed.chars (infoLogText 512 env.vertexInfoLog), Printed.endl]]
       else []) ++
      (if env.fragmentCompileStatus = 0 then
        [Call.cout [Printed.str "ERROR::SHADER::FRAGMENT::COMPILATION_FAILED\n",
          Printed.chars (infoLogText 512 env.fragmentInfoLog), Printed.endl]]
       else []) ++
      (if env.linkStatus = 0 then
        [Call.cout [Printed.str "ERROR::SHADER::PROGRAM::LINKING_FAILED\n",
          Printed.chars (infoLogText 512 env.programInfoLog), Printed.endl]]
       else []) := by
  obtain ⟨n, ending, -, hcalls, hend⟩ := main_ok_calls fuel env hw hg
  have h1 : (startupCalls env).filter Call.isPrint =
      [Call.cout [Printed.str "Maximum nr of vertex attributes supported: ",
        Printed.int env.nrAttributes, Printed.endl]] := by
    by_cases ha : env.apple = true <;> simp [ha, startupCalls, Call.isPrint]
  have h2 : contextCalls.filter Call.isPrint = [] := by
    simp [contextCalls, Call.isPrint]
  have h3 : (vertexShaderCalls env).filter Call.isPrint =
      if env.vertexCompileStatus = 0 then
        [Call.cout [Printed.str "ERROR::SHADER::VERTEX::COMPILATION_FAILED\n",
          Printed.chars (infoLogText 512 env.vertexInfoLog), Printed.endl]]
      else [] := by
    by_cases hv : env.vertexCompileStatus = 0 <;>
      simp [hv, vertexShaderCalls, vertexDiagnostic, Call.isPrint]
  have h4 : (fragmentShaderCalls env).filter Call.isPrint =
      if env.fragmentCompileStatus = 0 then
        [Call.cout [Printed.str "ERROR::SHADER::FRAGMENT::COMPILATION_FAILED\n",
          Printed.chars (infoLogText 512 env.fragmentInfoLog), Printed.endl]]
      else [] := by
    by_cases hv : env.fragmentCompileStatus = 0 <;>
      simp [hv, fragmentShaderCalls, fragmentDiagnostic, Call.isPrint]
  have h5 : (programCalls env).filter Call.isPrint =
      if env.linkStatus = 0 then
        [Call.cout [Printed.str "ERROR::SHADER::PROGRAM::LINKING_FAILED\n",
          Printed.chars (infoLogText 512 env.programInfoLog), Printed.endl]]
      else [] := by
    by_cases hv : env.linkStatus = 0 <;>
      simp [hv, programCalls, linkDiagnostic, Call.isPrint]
  have h6 : (deleteCalls env).filter Call.isPrint = [] := by
    simp [deleteCalls, Call.isPrint]
  have h7 : (geometryCalls env).filter Call.isPrint = [] := by
    simp [geometryCalls, Call.isPrint]
  have h8 : (iterationsCalls env env.shaderProgram env.VAO verticesLength n 0).filter
      Call.isPrint = [] :=
    filter_loop_eq_nil _ (by simp [Call.isPrint]) (by simp [Call.isPrint])
      (by simp [Call.isPrint]) (by simp [drawCalls, Call.isPrint])
      (by simp [Call.isPrint]) (by simp [Call.isPrint])
  have h9 : ending.filter Call.isPrint = [] := by
    rcases hend with ⟨-, he, -⟩ | ⟨-, he⟩ <;> simp [he, Call.isPrint]
  rw [hcalls]
  simp only [setupCalls, List.filter_append, h1, h2, h3, h4, h5, h6, h7, h8, h9,
    List.append_nil, List.nil_append]

/-- C5: when window and loader succeed, then for every combination of the two compile
statuses and the link status `main` does not return -1; it creates, attaches and links
both units, deletes them, uploads the geometry and reaches the loop condition; the
diagnostic retrievals are exactly one per stage whose status is 0, each with buffer size
512, and the diagnostics printed are exactly those of the stages whose status is 0; a
retrieved text with its terminating NUL takes at most 512 bytes. -/
theorem C5_build_failures_not_fatal (fuel : Nat) (env : Env)
    (hw : env.windowCreated = true) (hg : env.gladLoaded ≠ 0) :
    (main fuel env).exitCode ≠ some (-1) ∧
    (∃ rest, (main fuel env).world.calls =
        startupCalls env ++ contextCalls ++
        ([ Call.glCreateShader GLenum.GL_VERTEX_SHADER,
           Call.glShaderSource env.vertexShader 1 vertexShaderSource,
           Call.glCompileShader env.vertexShader,
           Call.glGetShaderiv env.vertexShader GLenum.GL_COMPILE_STATUS ] ++
          (if env.vertexCompileStatus = 0 then vertexDiagnostic env else [])) ++
        ([ Call.glCreateShader GLenum.GL_FRAGMENT_SHADER,
           Call.glShaderSource env.fragmentShader 1 fragmentShaderSource,
           Call.glCompileShader env.fragmentShader,
           Call.glGetShaderiv env.fragmentShader GLenum.GL_COMPILE_STATUS ] ++
          (if env.fragmentCompileStatus = 0 then fragmentDiagnostic env else [])) ++
        ([ Call.glCreateProgram,
           Call.glAttachShader env.shaderProgram env.vertexShader,
           Call.glAttachShader env.shaderProgram env.fragmentShader,
           Call.glLinkProgram env.shaderProgram,
           Call.glGetProgramiv env.shaderProgram GLenum.GL_LINK_STATUS ] ++
          (if env.linkStatus = 0 then linkDiagnostic env else [])) ++
        [ Call.glDeleteShader env.vertexShader, Call.glDeleteShader env.fragmentShader ] ++
        geometryCalls env ++ rest ∧
      (0 < fuel →
        ∃ rest', rest = Call.glfwWindowShouldClose env.shouldCloseAtCreation :: rest')) ∧
    (main fuel env).world.calls.filter Call.isInfoLogQuery =
      (if env.vertexCompileStatus = 0 then [Call.glGetShaderInfoLog env.vertexShader 512]
       else []) ++
      (if env.fragmentCompileStatus = 0 then [Call.glGetShaderInfoLog env.fragmentShader 512]
       else []) ++
      (if env.linkStatus = 0 then [Call.glGetProgramInfoLog env.shaderProgram 512]
       else []) ∧
    (main fuel env).world.calls.filter Call.isPrint =
      [Call.cout [Printed.str "Maximum nr of vertex attributes supported: ",
        Printed.int env.nrAttributes, Printed.endl]] ++
      (if env.vertexCompileStatus = 0 then
        [Call.cout [Printed.str "ERROR::SHADER::VERTEX::COMPILATION_FAILED\n",
          Printed.chars (infoLogText 512 env.vertexInfoLog), Printed.endl]]
       else []) ++
      (if env.fragmentCompileStatus = 0 then
        [Call.cout [Printed.str "ERROR::SHADER::FRAGMENT::COMPILATION_FAILED\n",
          Printed.chars (infoLogText 512 env.fragmentInfoLog), Printed.endl]]
       else []) ++
      (if env.linkStatus = 0 then
        [Call.cout [Printed.str "ERROR::SHADER::PROGRAM::LINKING_FAILED\n",
          Printed.chars (infoLogText 512 env.programInfoLog), Printed.endl]]
       else []) ∧
    (infoLogText 512 env.vertexInfoLog).length + 1 ≤ 512 ∧
    (infoLogText 512 env.fragmentInfoLog).length + 1 ≤ 512 ∧
    (infoLogText 512 env.programInfoLog).length + 1 ≤ 512 := by
  refine ⟨?_, ?_, infoLogQueries_main fuel env hw hg, prints_main fuel env hw hg,
    infoLogText_length _ _ (by decide), infoLogText_length _ _ (by decide),
    infoLogText_length _ _ (by decide)⟩
  · obtain ⟨n, ending, -, -, hend⟩ := main_ok_calls fuel env hw hg
    rcases hend with ⟨he, -, -⟩ | ⟨he, -⟩ <;> simp [he]
  · cases fuel with
    | zero =>
      obtain ⟨n, ending, -, hcalls, -⟩ := main_ok_calls 0 env hw hg
      refine ⟨iterationsCalls env env.shaderProgram env.VAO verticesLength n 0 ++ ending,
        ?_, fun h => absurd h (Nat.lt_irrefl 0)⟩
      rw [hcalls]
      simp [setupCalls, vertexShaderCalls, fragmentShaderCalls, programCalls, deleteCalls]
    | succ fuel =>
      obtain ⟨rest, hrest⟩ := main_ok_head fuel env hw hg
      refine ⟨Call.glfwWindowShouldClose env.shouldCloseAtCreation :: rest, ?_,
        fun _ => ⟨rest, rfl⟩⟩
      rw [hrest]
      simp [setupCalls, vertexShaderCalls, fragmentShaderCalls, programCalls, deleteCalls]

/-- Witness for C5: in the run `closeOnFirstPoll` all three stages fail, three
diagnostics are retrieved, and the run still ends with exit code 0. -/
theorem C5_witness :
    closeOnFirstPoll.windowCreated = true ∧ closeOnFirstPoll.gladLoaded ≠ 0 ∧
      (main 2 closeOnFirstPoll).exitCode = some 0 ∧
      (main 2 closeOnFirstPoll).world.calls.filter Call.isInfoLogQuery =
        [ Call.glGetShaderInfoLog 1 512, Call.glGetShaderInfoLog 2 512,
          Call.glGetProgramInfoLog 3 512 ] :=
  have h := C5_build_failures_not_fatal 2 closeOnFirstPoll rfl (by decide)
  ⟨rfl, by decide, by decide, h.2.2.1⟩

/-! ## Exit codes -/

theorem exitCode_ok (fuel : Nat) (env : Env) (hw : env.windowCreated = true)
    (hg : env.gladLoaded ≠ 0) :
    (main fuel env).exitCode =
      if (renderLoop env env.shaderProgram env.VAO verticesLength fuel 0 (setupWorld env)).1
      then some 0 else none := by
  rw [main_ok fuel env hw hg]
  split_ifs <;> rfl

/-- C6: `main` returns -1 right after printing its message when window creation fails
(then also calling `glfwTerminate`) or when the loader fails; it returns 0 exactly when
window and loader succeed and the loop condition sees the close-request flag set, which,
once the flag is raised in some iteration, happens within two more checks; no other value
is returned; on the failure paths no shader or program is created and no frame call is
made. -/
theorem C6_exit_codes (fuel : Nat) (env : Env) :
    (env.windowCreated = false →
      main fuel env =
        { exitCode := some (-1),
          world := { shouldClose := false, viewport := none,
                     calls := startupCalls env ++
                      [ Call.cout [Printed.str "Failed to create GLFW window", Printed.endl],
                        Call.glfwTerminate ] } }) ∧
    (env.windowCreated = true → env.gladLoaded = 0 →
      main fuel env =
        { exitCode := some (-1),
          world := { shouldClose := env.shouldCloseAtCreation, viewport := none,
                     calls := startupCalls env ++
                      [ Call.glfwMakeContextCurrent, Call.glfwSetFramebufferSizeCallback,
                        Call.gladLoadGLLoader,
                        Call.cout [Printed.str "Failed to initialize GLAD", Printed.endl] ] } }) ∧
    ((main fuel env).exitCode = some (-1) ↔
      env.windowCreated = false ∨ env.gladLoaded = 0) ∧
    ((main fuel env).exitCode = some 0 ↔
      env.windowCreated = true ∧ env.gladLoaded ≠ 0 ∧
        ∃ k, k < fuel ∧
          (env.shouldCloseAtCreation = true ∨ ∃ j, j < k ∧ closeTrigger env j = true)) ∧
    (env.windowCreated = true → env.gladLoaded ≠ 0 →
      ∀ j, closeTrigger env j = true → j + 2 ≤ fuel → (main fuel env).exitCode = some 0) ∧
    ((main fuel env).exitCode = some 0 →
      ∃ before, (main fuel env).world.calls =
        before ++ [Call.glfwWindowShouldClose true, Call.glfwTerminate]) ∧
    ((main fuel env).exitCode = none ∨ (main fuel env).exitCode = some 0 ∨
      (main fuel env).exitCode = some (-1)) ∧
    ((main fuel env).exitCode = some (-1) →
      ∀ c ∈ (main fuel env).world.calls,
        c.isShaderCreation = false ∧ c.isFrameCall = false) := by
  have hloop : env.windowCreated = true → env.gladLoaded ≠ 0 →
      ((main fuel env).exitCode = some 0 ↔
        ∃ k, k < fuel ∧
          (env.shouldCloseAtCreation = true ∨ ∃ j, j < k ∧ closeTrigger env j = true)) := by
    intro hw hg
    have hfin := renderLoop_finished env env.shaderProgram env.VAO verticesLength fuel 0
      (setupWorld env)
    simp only [Nat.zero_add] at hfin
    have hflag : (setupWorld env).shouldClose = env.shouldCloseAtCreation := rfl
    rw [hflag] at hfin
    rw [exitCode_ok fuel env hw hg, ← hfin]
    split_ifs with h <;> simp [h]
  have hplain : (main fuel env).exitCode = some (-1) →
      ∀ c ∈ (main fuel env).world.calls,
        c.isShaderCreation = false ∧ c.isFrameCall = false := by
    intro hexit c hc
    by_cases hw : env.windowCreated = true
    · by_cases hg : env.gladLoaded = 0
      · rw [main_loaderFailed fuel env hw hg] at hc
        simp only [List.mem_append] at hc
        rcases hc with (hc | hc) | hc
        · exact ⟨(startupCalls_plain env c hc).2.2, (startupCalls_plain env c hc).2.1⟩
        · exact ⟨(contextCalls_plain c hc).2.2, (contextCalls_plain c hc).2.1⟩
        · simp at hc; simp [hc, Call.isShaderCreation, Call.isFrameCall]
      · rw [exitCode_ok fuel env hw hg] at hexit
        split_ifs at hexit
        simp at hexit
    · have hw' : env.windowCreated = false := by simpa using hw
      rw [main_windowFailed fuel env hw'] at hc
      simp only [List.mem_append] at hc
      rcases hc with hc | hc
      · exact ⟨(startupCalls_plain env c hc).2.2, (startupCalls_plain env c hc).2.1⟩
      · simp at hc
        rcases hc with hc | hc <;> simp [hc, Call.isShaderCreation, Call.isFrameCall]
  refine ⟨fun hw => main_windowFailed fuel env hw, fun hw hg => ?_, ?_, ?_, ?_, ?_, ?_, hplain⟩
  · rw [main_loaderFailed fuel env hw hg]; simp [contextCalls]
  · by_cases hw : env.windowCreated = true
    · by_cases hg : env.gladLoaded = 0
      · rw [main_loaderFailed fuel env hw hg]; simp [hg]
      · rw [exitCode_ok fuel env hw hg]
        split_ifs <;> simp [hw, hg]
    · have hw' : env.windowCreated = false := by simpa using hw
      rw [main_windowFailed fuel env hw']; simp [hw']
  · by_cases hw : env.windowCreated = true
    · by_cases hg : env.gladLoaded = 0
      · rw [main_loaderFailed fuel env hw hg]; simp [hg]
      · rw [hloop hw hg]; simp [hw, hg]
    · have hw' : env.windowCreated = false := by simpa using hw
      rw [main_windowFailed fuel env hw']; simp [hw']
  · intro hw hg j hj hfuel
    rw [hloop hw hg]
    exact ⟨j + 1, by omega, Or.inr ⟨j, Nat.lt_succ_self j, hj⟩⟩
  · intro hexit
    by_cases hw : env.windowCreated = true
    · by_cases hg : env.gladLoaded = 0
      · rw [main_loaderFailed fuel env hw hg] at hexit; simp at hexit
      · obtain ⟨n, ending, -, hcalls, hend⟩ := main_ok_calls fuel env hw hg
        rcases hend with ⟨he, -, -⟩ | ⟨-, he⟩
        · rw [he] at hexit; simp at hexit
        · exact ⟨setupCalls env ++
            iterationsCalls env env.shaderProgram env.VAO verticesLength n 0,
            by rw [hcalls, he]⟩
    · have hw' : env.windowCreated = false := by simpa using hw
      rw [main_windowFailed fuel env hw'] at hexit; simp at hexit
  · by_cases hw : env.windowCreated = true
    · by_cases hg : env.gladLoaded = 0
      · rw [main_loaderFailed fuel env hw hg]; simp
      · rw [exitCode_ok fuel env hw hg]
        split_ifs <;> simp
    · have hw' : env.windowCreated = false := by simpa using hw
      rw [main_windowFailed fuel env hw']; simp

/-! ## The render loop, iteration by iteration -/

theorem iterationsCalls_eq_flatMap (env : Env) (p v : Nat) (c : Int) (n : Nat) :
    ∀ i, iterationsCalls env p v c n i =
      (List.range n).flatMap fun j =>
        Call.glfwWindowShouldClose false :: frameCalls env p v c (i + j) := by
  induction n with
  | zero => intro i; simp [iterationsCalls]
  | succ n ih =>
    intro i
    rw [List.range_succ_eq_map, List.flatMap_cons, List.flatMap_map, iterationsCalls, ih]
    simp [Nat.add_assoc, Nat.add_comm 1]

/-- Counterexample to C7 as stated: in the first iteration of the run `closeOnFirstPoll`
the buffer swap is not the last step; `glfwPollEvents` follows it, and the only polling of
events comes after the clear, not before it. -/
theorem C7_swap_not_last :
    (renderFrame closeOnFirstPoll 3 1 9 0 initialWorld).calls =
      [ Call.glfwGetKey GLFWconst.GLFW_KEY_ESCAPE 0,
        Call.glClearColor 0.2 0.3 0.3 1.0,
        Call.glClear GLenum.GL_COLOR_BUFFER_BIT,
        Call.glUseProgram 3,
        Call.glBindVertexArray 1,
        Call.glDrawElements GLenum.GL_TRIANGLES 9 GLenum.GL_UNSIGNED_INT 0,
        Call.glfwSwapBuffers,
        Call.glfwPollEvents ] ∧
    (renderFrame closeOnFirstPoll 3 1 9 0 initialWorld).calls.getLast? ≠
      some Call.glfwSwapBuffers ∧
    (main 2 closeOnFirstPoll).exitCode = some 0 ∧
    ((main 2 closeOnFirstPoll).world.calls.reverse.take 4).reverse =
      [ Call.glfwSwapBuffers, Call.glfwPollEvents, Call.glfwWindowShouldClose true,
        Call.glfwTerminate ] :=
  ⟨rfl, by decide, by decide, by decide⟩

/-- C7, amended: every iteration of the render loop makes its calls in this order: the
escape-key query of `processInput` (followed by the close request when the key is
pressed), `glClearColor` with the fixed colour, `glClear`, `glUseProgram` of the linked
program, `glBindVertexArray` of the VAO, the indexed draw, `glfwSwapBuffers`, and last
`glfwPollEvents` together with the resize callbacks it runs.  In every run of `main` that
gets past the loader check, the loop part of the trace is a sequence of such iterations,
each preceded by one evaluation of the loop condition answering `false`. -/
theorem C7_iteration_order (env : Env) (shaderProgram VAO : Nat) (count : Int) (i : Nat)
    (w : World) :
    (renderFrame env shaderProgram VAO count i w).calls =
      w.calls ++
        [ Call.glfwGetKey GLFWconst.GLFW_KEY_ESCAPE (env.escapeKey i) ] ++
        (if env.escapeKey i = GLFW_PRESS then [Call.glfwSetWindowShouldClose true] else []) ++
        [ Call.glClearColor 0.2 0.3 0.3 1.0,
          Call.glClear GLenum.GL_COLOR_BUFFER_BIT,
          Call.glUseProgram shaderProgram,
          Call.glBindVertexArray VAO,
          Call.glDrawElements GLenum.GL_TRIANGLES count GLenum.GL_UNSIGNED_INT 0,
          Call.glfwSwapBuffers,
          Call.glfwPollEvents ] ++
        (env.events i).resizes.map (fun wh => Call.glViewport 0 0 wh.1 wh.2) ∧
    ∀ fuel, env.windowCreated = true → env.gladLoaded ≠ 0 →
      ∃ n ending, n ≤ fuel ∧
        (main fuel env).world.calls =
          setupCalls env ++
          ((List.range n).flatMap fun j =>
            Call.glfwWindowShouldClose false ::
              (renderFrame env env.shaderProgram env.VAO verticesLength j initialWorld).calls) ++
          ending ∧
        (ending = [] ∨ ending = [Call.glfwWindowShouldClose true, Call.glfwTerminate]) := by
  constructor
  · rw [renderFrame_calls]
    simp [frameCalls, processInputCalls, drawCalls, pollCalls]
  · intro fuel hw hg
    obtain ⟨n, ending, hn, hcalls, hend⟩ := main_ok_calls fuel env hw hg
    refine ⟨n, ending, hn, ?_, ?_⟩
    · rw [hcalls, iterationsCalls_eq_flatMap]
      simp [renderFrame_calls, initialWorld]
    · rcases hend with ⟨-, he, -⟩ | ⟨-, he⟩
      · exact Or.inl he
      · exact Or.inr he

/-- C8: for all new dimensions `width`, `height`, `framebuffer_size_callback` makes the
single call `glViewport(0, 0, width, height)`, after which the requested drawing rectangle
is exactly (0, 0, width, height) with the dimensions passed through unchanged; the
close-request flag is untouched. -/
theorem C8_resize_sets_viewport (width height : Int) (w : World) :
    framebuffer_size_callback width height w =
      { shouldClose := w.shouldClose,
        viewport := some (0, 0, width, height),
        calls := w.calls ++ [Call.glViewport 0 0 width height] } :=
  rfl

/-- C9: `processInput` queries the escape key; if it is reported as `GLFW_PRESS` it sets
the close-request flag to true through `glfwSetWindowShouldClose(window, true)`; for any
other key state it leaves the flag as it was, so it never clears it; the drawing
rectangle is untouched and no other call is made. -/
theorem C9_processInput (key : Int) (w : World) :
    (key = GLFW_PRESS →
      processInput key w =
        { shouldClose := true, viewport := w.viewport,
          calls := w.calls ++ [ Call.glfwGetKey GLFWconst.GLFW_KEY_ESCAPE key,
                                Call.glfwSetWindowShouldClose true ] }) ∧
    (key ≠ GLFW_PRESS →
      processInput key w =
        { shouldClose := w.shouldClose, viewport := w.viewport,
          calls := w.calls ++ [ Call.glfwGetKey GLFWconst.GLFW_KEY_ESCAPE key ] }) ∧
    (w.shouldClose = true → (processInput key w).shouldClose = true) ∧
    (processInput key w).viewport = w.viewport := by
  by_cases h : key = GLFW_PRESS
  · simp [processInput, h, emit, glfwSetWindowShouldClose]
  · simp [processInput, h, emit]

/-- C10: the render loop evaluates `glfwWindowShouldClose` once at the top of every
iteration and nothing else decides whether it goes on.  Started with the flag set it makes
that one check and no frame call; started with the flag clear and the escape key pressed
in the current iteration, it completes that iteration (clear, draw, swap, poll) and leaves
at the next check.  In general its trace is a number of complete iterations, each opened
by a check answering `false`, closed by a check answering `true` when the loop is left,
and the loop is left within `fuel` checks exactly when the flag is set at the start or
raised by an earlier iteration. -/
theorem C10_loop_gated_by_flag (env : Env) (shaderProgram VAO : Nat) (count : Int)
    (fuel i : Nat) (w : World) :
    (w.shouldClose = true →
      renderLoop env shaderProgram VAO count (fuel + 1) i w =
        (true, { shouldClose := true, viewport := w.viewport,
                 calls := w.calls ++ [Call.glfwWindowShouldClose true] })) ∧
    (w.shouldClose = false → env.escapeKey i = GLFW_PRESS →
      (renderLoop env shaderProgram VAO count (fuel + 2) i w).1 = true ∧
      (renderLoop env shaderProgram VAO count (fuel + 2) i w).2.calls =
        w.calls ++
          [ Call.glfwWindowShouldClose false,
            Call.glfwGetKey GLFWconst.GLFW_KEY_ESCAPE GLFW_PRESS,
            Call.glfwSetWindowShouldClose true,
            Call.glClearColor 0.2 0.3 0.3 1.0,
            Call.glClear GLenum.GL_COLOR_BUFFER_BIT,
            Call.glUseProgram shaderProgram,
            Call.glBindVertexArray VAO,
            Call.glDrawElements GLenum.GL_TRIANGLES count GLenum.GL_UNSIGNED_INT 0,
            Call.glfwSwapBuffers,
            Call.glfwPollEvents ] ++
          (env.events i).resizes.map (fun wh => Call.glViewport 0 0 wh.1 wh.2) ++
          [ Call.glfwWindowShouldClose true ]) ∧
    (∃ n, n ≤ fuel ∧
      ((renderLoop env shaderProgram VAO count fuel i w).1 = false → n = fuel) ∧
      (renderLoop env shaderProgram VAO count fuel i w).2.calls =
        w.calls ++
          ((List.range n).flatMap fun j =>
            Call.glfwWindowShouldClose false ::
              (renderFrame env shaderProgram VAO count (i + j) initialWorld).calls) ++
          (if (renderLoop env shaderProgram VAO count fuel i w).1
           then [Call.glfwWindowShouldClose true] else [])) ∧
    ((renderLoop env shaderProgram VAO count fuel i w).1 = true ↔
      ∃ k, k < fuel ∧
        (w.shouldClose = true ∨ ∃ j, j < k ∧ closeTrigger env (i + j) = true)) := by
  refine ⟨?_, ?_, ?_, renderLoop_finished env shaderProgram VAO count fuel i w⟩
  · intro h
    simp [renderLoop, h, emit]
  · intro hf hkey
    have hflag : (renderFrame env shaderProgram VAO count i
        (emit (Call.glfwWindowShouldClose false) w)).shouldClose = true := by
      rw [renderFrame_shouldClose]; simp [closeTrigger, hkey]
    have hstep : renderLoop env shaderProgram VAO count (fuel + 2) i w =
        renderLoop env shaderProgram VAO count (fuel + 1) (i + 1)
          (renderFrame env shaderProgram VAO count i
            (emit (Call.glfwWindowShouldClose false) w)) := by
      simp [renderLoop, hf]
    rw [hstep]
    constructor
    · simp [renderLoop, hflag]
    · simp [renderLoop, hflag, renderFrame_calls, frameCalls, processInputCalls, drawCalls,
        pollCalls, hkey]
  · obtain ⟨n, hn, hout, hcalls⟩ := renderLoop_calls env shaderProgram VAO count fuel i w
    refine ⟨n, hn, hout, ?_⟩
    rw [hcalls, iterationsCalls_eq_flatMap]
    simp [renderFrame_calls, initialWorld]

end LearnOpenGL
